import Mathlib

/-!
Verification of the test-and-reporting harness: the control-flow graph of
UserRepository.update() drawn by flow_graph_visualization.py, the username
validator of tests/test_simple_validation.py, and the project-scanning
reporting code of final_testing_summary.py, each embedded shallowly from
the source.
-/

namespace FlowGraph

/-- The nodes dict of create_flow_graph: node id, x position, y position,
label text. -/
def nodes : List (Nat × Nat × Nat × String) :=
  [(1, 5, 15, "1. user = get_by_id()"),
   (2, 5, 14, "2. if user is None"),
   (3, 2, 13, "3. raise HTTPException\n(404)"),
   (4, 5, 12, "4. update_data = \nmodel_dump()"),
   (5, 5, 11, "5. if 'email' in \nupdate_data"),
   (6, 3, 10, "6. existing_user = \nget_by_email()"),
   (7, 3, 9, "7. if existing_user and \nexisting_user.id != id"),
   (8, 1, 8, "8. raise HTTPException\n(400)"),
   (9, 5, 8, "9. for key, value in \nupdate_data.items()"),
   (10, 5, 7, "10. setattr(user, \nkey, value)"),
   (11, 5, 6, "11. user.updated_at = \ndatetime.now()"),
   (12, 5, 5, "12. session.commit()"),
   (13, 5, 4, "13. session.refresh()"),
   (14, 5, 3, "14. return user")]

/-- The ids of the graph nodes, in the order of the nodes dict. -/
def nodeIds : List Nat := nodes.map (fun n => n.1)

/-- The edges list of create_flow_graph: source node, target node, label. -/
def edges : List (Nat × Nat × String) :=
  [(1, 2, ""),
   (2, 3, "user is None"),
   (2, 4, "user exists"),
   (4, 5, ""),
   (5, 6, "email in data"),
   (5, 9, "no email"),
   (6, 7, ""),
   (7, 8, "email taken"),
   (7, 9, "email ok"),
   (9, 10, "has items"),
   (10, 9, "loop back"),
   (9, 11, "loop end"),
   (11, 12, ""),
   (12, 13, ""),
   (13, 14, "")]

/-- Source and target of each edge, labels dropped. -/
def edgePairs : List (Nat × Nat) := edges.map (fun e => (e.1, e.2.1))

/-- There is an arrow from a to b in the drawn graph. -/
def isEdge (a b : Nat) : Bool := decide ((a, b) ∈ edgePairs)

/-- Node colouring of create_flow_graph: red for exceptions, yellow for
decisions, green for plain operations. -/
inductive NodeKind where
  | exceptionNode
  | predicateNode
  | ordinaryNode
deriving DecidableEq, Repr

/-- The node classification of the drawing loop: node ids 3 and 8 are
exception nodes, ids 2, 5, 7 and 9 are predicate nodes, the rest ordinary. -/
def nodeKind (n : Nat) : NodeKind :=
  if n ∈ [3, 8] then NodeKind.exceptionNode
  else if n ∈ [2, 5, 7, 9] then NodeKind.predicateNode
  else NodeKind.ordinaryNode

/-- Nodes a and b are joined by an edge in either direction. -/
def undirAdj (a b : Nat) : Bool := isEdge a b || isEdge b a

/-- One step of undirected closure: keep the nodes already collected and add
every node adjacent to one of them. -/
def expandStep (s : List Nat) : List Nat :=
  nodeIds.filter (fun v => s.contains v || s.any (fun u => undirAdj u v))

def reachAux : Nat → List Nat → List Nat
  | 0, s => s
  | n + 1, s => reachAux n (expandStep s)

/-- All nodes connected to a, ignoring edge direction (closure with enough
fuel to saturate on this 14-node graph). -/
def reachSet (a : Nat) : List Nat := reachAux nodeIds.length [a]

/-- One representative per connected component: the nodes that reach no
smaller node. -/
def componentReps : List Nat :=
  nodeIds.filter (fun v => !(reachSet v).any (fun u => u < v))

/-- P of the cyclomatic-complexity formula: the number of connected
components of the graph. -/
def numComponents : Nat := componentReps.length

/-- N of the formula: the number of nodes. -/
def numNodes : Nat := nodes.length

/-- E of the formula: the number of edges. -/
def numEdges : Nat := edges.length

/-- M = E - N + 2P, the cyclomatic complexity by the edge-node formula. -/
def cyclomaticEN : Int := (numEdges : Int) - (numNodes : Int) + 2 * (numComponents : Int)

/-- The predicate nodes of the graph, in node order. -/
def predicateNodes : List Nat :=
  nodeIds.filter (fun n => nodeKind n == NodeKind.predicateNode)

/-- The exception nodes of the graph, in node order. -/
def exceptionNodes : List Nat :=
  nodeIds.filter (fun n => nodeKind n == NodeKind.exceptionNode)

/-- A list of nodes is a walk when every consecutive pair is an edge. -/
def isWalk : List Nat → Bool
  | [] => true
  | [_] => true
  | a :: b :: rest => isEdge a b && isWalk (b :: rest)

/-- Node a has at least one outgoing edge. -/
def hasOutgoing (a : Nat) : Bool := edgePairs.any (fun e => e.1 == a)

/-- Documented independent path 1 of the complexity text box. -/
def path1 : List Nat := [1, 2, 3]

/-- Documented independent path 2. -/
def path2 : List Nat := [1, 2, 4, 5, 9, 11, 12, 13, 14]

/-- Documented independent path 3. -/
def path3 : List Nat := [1, 2, 4, 5, 6, 7, 8]

/-- Documented independent path 4. -/
def path4 : List Nat := [1, 2, 4, 5, 6, 7, 9, 10, 11, 12, 13, 14]

/-- Documented independent path 5. -/
def path5 : List Nat := [1, 2, 4, 5, 6, 7, 9, 11, 12, 13, 14]

/-- Path 4 with the loop-back through node 9 restored, so that each
consecutive pair is an edge. -/
def path4Repaired : List Nat := [1, 2, 4, 5, 6, 7, 9, 10, 9, 11, 12, 13, 14]

end FlowGraph

/-- C1 counterexample: on the drawn graph E = 15, N = 14, P = 1, so the
formula M = E - N + 2P yields 3, not the claimed 5. -/
theorem c1_formula_not_five : FlowGraph.cyclomaticEN ≠ 5 := by decide

/-- C1 (amended): the graph has 15 edges, 14 nodes and 1 connected
component; the formula M = E - N + 2P gives 3, while the predicate-node
count plus one gives 5, and the two methods disagree on this graph. -/
theorem c1_complexity_amended :
    FlowGraph.numEdges = 15 ∧ FlowGraph.numNodes = 14 ∧
    FlowGraph.numComponents = 1 ∧ FlowGraph.cyclomaticEN = 3 ∧
    FlowGraph.predicateNodes.length + 1 = 5 ∧
    FlowGraph.cyclomaticEN ≠ (FlowGraph.predicateNodes.length : Int) + 1 := by
  refine ⟨rfl, rfl, by decide, by decide, by decide, by decide⟩

/-- C2 counterexample: the pair (10, 11) of documented path 4 is not an
edge of the graph, so path 4 is not a walk. -/
theorem c2_path4_not_walk :
    FlowGraph.isEdge 10 11 = false ∧ FlowGraph.isWalk FlowGraph.path4 = false := by
  decide

/-- C2 (amended): documented paths 1, 2, 3 and 5 are walks that start at
node 1 and end at nodes without outgoing edges (3, 8 or 14); path 4 is not
a walk because (10, 11) is not an edge, though restoring the loop-back
node 9 between 10 and 11 yields one. -/
theorem c2_paths_amended :
    (FlowGraph.isWalk FlowGraph.path1 = true ∧
     FlowGraph.isWalk FlowGraph.path2 = true ∧
     FlowGraph.isWalk FlowGraph.path3 = true ∧
     FlowGraph.isWalk FlowGraph.path5 = true) ∧
    (FlowGraph.path1.head? = some 1 ∧ FlowGraph.path2.head? = some 1 ∧
     FlowGraph.path3.head? = some 1 ∧ FlowGraph.path4.head? = some 1 ∧
     FlowGraph.path5.head? = some 1) ∧
    (FlowGraph.path1.getLast? = some 3 ∧ FlowGraph.path2.getLast? = some 14 ∧
     FlowGraph.path3.getLast? = some 8 ∧ FlowGraph.path5.getLast? = some 14) ∧
    (FlowGraph.hasOutgoing 3 = false ∧ FlowGraph.hasOutgoing 8 = false ∧
     FlowGraph.hasOutgoing 14 = false) ∧
    FlowGraph.isWalk FlowGraph.path4 = false ∧
    FlowGraph.isWalk FlowGraph.path4Repaired = true := by
  decide

/-- C7: the predicate nodes of the drawn graph are exactly 2, 5, 7 and 9,
and the exception nodes are exactly 3 and 8. -/
theorem c7_node_classification :
    FlowGraph.predicateNodes = [2, 5, 7, 9] ∧
    FlowGraph.exceptionNodes = [3, 8] := by
  decide

namespace FlowGraph

lemma walk_tail (x : Nat) (l : List Nat) (h : isWalk (x :: l) = true) :
    isWalk l = true := by
  cases l with
  | nil => rfl
  | cons y ys =>
    simp only [isWalk, Bool.and_eq_true] at h
    exact h.2

lemma walk_append_adj :
    ∀ (u : List Nat) (a b : Nat) (t : List Nat),
      isWalk (u ++ a :: b :: t) = true → isEdge a b = true := by
  intro u
  induction u with
  | nil =>
    intro a b t h
    simp only [List.nil_append, isWalk, Bool.and_eq_true] at h
    exact h.1
  | cons x xs ih =>
    intro a b t h
    exact ih a b t (walk_tail x (xs ++ a :: b :: t) h)

lemma edge_into_14 (a : Nat) (h : isEdge a 14 = true) : a = 13 := by
  have h' := of_decide_eq_true h
  simp [edgePairs, edges, Prod.ext_iff] at h'
  omega

lemma edge_into_13 (a : Nat) (h : isEdge a 13 = true) : a = 12 := by
  have h' := of_decide_eq_true h
  simp [edgePairs, edges, Prod.ext_iff] at h'
  omega

lemma edge_into_12 (a : Nat) (h : isEdge a 12 = true) : a = 11 := by
  have h' := of_decide_eq_true h
  simp [edgePairs, edges, Prod.ext_iff] at h'
  omega

lemma no_edge_out_3 (b : Nat) : isEdge 3 b = false := by
  apply decide_eq_false
  simp [edgePairs, edges, Prod.ext_iff]

lemma no_edge_out_8 (b : Nat) : isEdge 8 b = false := by
  apply decide_eq_false
  simp [edgePairs, edges, Prod.ext_iff]

lemma walk_getElem :
    ∀ (w : List Nat), isWalk w = true →
      ∀ (i : Nat) (a b : Nat), w[i]? = some a → w[i + 1]? = some b →
        isEdge a b = true := by
  intro w
  induction w with
  | nil =>
    intro _ i a b ha _
    simp at ha
  | cons x xs ih =>
    intro hw i a b ha hb
    cases i with
    | zero =>
      cases xs with
      | nil => simp at hb
      | cons y ys =>
        simp at ha hb
        subst ha hb
        simp only [isWalk, Bool.and_eq_true] at hw
        exact hw.1
    | succ j =>
      simp only [List.getElem?_cons_succ] at ha hb
      exact ih (walk_tail x xs hw) j a b ha hb

end FlowGraph

/-- C5: in the drawn graph, every walk from entry node 1 to return node 14
ends with the segment 11, 12, 13, 14: it sets updated_at, then commits,
then refreshes, in that order, before returning. -/
theorem c5_commit_refresh_before_return (w : List Nat)
    (hw : FlowGraph.isWalk w = true) (hh : w.head? = some 1)
    (hl : w.getLast? = some 14) :
    ∃ u, w = u ++ [11, 12, 13, 14] := by
  rcases List.eq_nil_or_concat w with h0 | ⟨v, b, hv⟩
  · subst h0; simp at hl
  · rw [List.concat_eq_append] at hv
    subst hv
    rw [List.getLast?_concat] at hl
    have hb : b = 14 := Option.some.inj hl
    subst hb
    rcases List.eq_nil_or_concat v with h1 | ⟨v1, c, hv1⟩
    · subst h1; simp at hh
    · rw [List.concat_eq_append] at hv1
      subst hv1
      have hc : c = 13 := by
        refine FlowGraph.edge_into_14 c (FlowGraph.walk_append_adj v1 c 14 [] ?_)
        simpa using hw
      subst hc
      rcases List.eq_nil_or_concat v1 with h2 | ⟨v2, d, hv2⟩
      · subst h2; simp at hh
      · rw [List.concat_eq_append] at hv2
        subst hv2
        have hd : d = 12 := by
          refine FlowGraph.edge_into_13 d (FlowGraph.walk_append_adj v2 d 13 [14] ?_)
          simpa [List.append_assoc] using hw
        subst hd
        rcases List.eq_nil_or_concat v2 with h3 | ⟨v3, e, hv3⟩
        · subst h3; simp at hh
        · rw [List.concat_eq_append] at hv3
          subst hv3
          have he : e = 11 := by
            refine FlowGraph.edge_into_12 e
              (FlowGraph.walk_append_adj v3 e 12 [13, 14] ?_)
            simpa [List.append_assoc] using hw
          subst he
          exact ⟨v3, by simp [List.append_assoc]⟩

/-- C5 witness: documented path 2 is such a walk and indeed ends with the
segment 11, 12, 13, 14. -/
theorem c5_witness :
    ∃ u, FlowGraph.path2 = u ++ [11, 12, 13, 14] :=
  c5_commit_refresh_before_return FlowGraph.path2 (by decide) (by decide)
    (by decide)

/-- C6: exception nodes 3 and 8 have no outgoing edges, so a walk that
reaches node 3 or node 8 at position i never visits the commit node 12 at
any later position j. -/
theorem c6_exception_paths_never_commit :
    (∀ b, FlowGraph.isEdge 3 b = false ∧ FlowGraph.isEdge 8 b = false) ∧
    (∀ (w : List Nat) (i j : Nat), FlowGraph.isWalk w = true →
      (w[i]? = some 3 ∨ w[i]? = some 8) → i < j → w[j]? ≠ some 12) := by
  constructor
  · intro b
    exact ⟨FlowGraph.no_edge_out_3 b, FlowGraph.no_edge_out_8 b⟩
  · intro w i j hw hi hij hj
    have hjlen : j < w.length := (List.getElem?_eq_some_iff.mp hj).1
    have hi1 : i + 1 < w.length := by omega
    have hnext : w[i + 1]? = some w[i + 1] := List.getElem?_eq_getElem hi1
    rcases hi with hi3 | hi8
    · have := FlowGraph.walk_getElem w hw i 3 (w[i + 1]) hi3 hnext
      rw [FlowGraph.no_edge_out_3 (w[i + 1])] at this
      exact Bool.false_ne_true this
    · have := FlowGraph.walk_getElem w hw i 8 (w[i + 1]) hi8 hnext
      rw [FlowGraph.no_edge_out_8 (w[i + 1])] at this
      exact Bool.false_ne_true this

/-- C6 witness: on the concrete walk 1, 2, 3 with node 3 at position 2,
position 5 does not hold the commit node 12. -/
theorem c6_witness : ([1, 2, 3] : List Nat)[5]? ≠ some 12 :=
  c6_exception_paths_never_commit.2 [1, 2, 3] 2 5 (by decide)
    (Or.inl (by decide)) (by decide)

namespace Validation

/-- The result dict of validate_username: a valid flag and an error list. -/
structure ValidationResult where
  valid : Bool
  errors : List String
deriving DecidableEq, Repr

/-- Python str.isdigit over an abstract digit classifier: the string is
nonempty and every character is a digit. -/
def pyIsDigit (isDigitC : Char → Bool) (u : List Char) : Bool :=
  !u.isEmpty && u.all isDigitC

/-- Python str.isalnum over an abstract alphanumeric classifier: the string
is nonempty and every character is alphanumeric. -/
def pyIsAlnum (isAlnumC : Char → Bool) (u : List Char) : Bool :=
  !u.isEmpty && u.all isAlnumC

/-- Python str.strip over an abstract whitespace classifier: drop leading
and trailing whitespace characters. -/
def pyStrip (isSpaceC : Char → Bool) (u : List Char) : List Char :=
  ((u.dropWhile isSpaceC).reverse.dropWhile isSpaceC).reverse

def msgEmpty : String := "Имя пользователя не может быть пустым"

def msgTooShort : String := "Имя пользователя должно содержать минимум 2 символа"

def msgTooLong : String := "Имя пользователя не должно превышать 30 символов"

def msgOnlyDigits : String := "Имя пользователя не может состоять только из цифр"

def msgNotAlnum : String := "Имя пользователя должно содержать только буквы и цифры"

/-- The validate_username function of test_simple_validation.py, over
abstract character classifiers standing for Python's Unicode tables: an
empty or whitespace-only name returns immediately; otherwise a length
check, an all-digits check and an alphanumeric check each append their
error, and the name is valid when no error was collected. -/
def validate_username (isDigitC isAlnumC isSpaceC : Char → Bool)
    (u : List Char) : ValidationResult :=
  if u.isEmpty || (pyStrip isSpaceC u).isEmpty then
    { valid := false, errors := [msgEmpty] }
  else
    let e1 : List String :=
      if u.length < 2 then [msgTooShort]
      else if u.length > 30 then [msgTooLong]
      else []
    let e2 : List String := if pyIsDigit isDigitC u then [msgOnlyDigits] else []
    let e3 : List String := if !(pyIsAlnum isAlnumC u) then [msgNotAlnum] else []
    let errors := e1 ++ e2 ++ e3
    { valid := errors.length == 0, errors := errors }

end Validation

/-- C3: validate_username marks a name valid exactly when it is nonempty
after stripping whitespace, its length is between 2 and 30, it does not
consist only of digits, and it is alphanumeric; and the valid flag is true
exactly when the returned error list is empty. -/
theorem c3_validate_username_valid_iff
    (isDigitC isAlnumC isSpaceC : Char → Bool) (u : List Char) :
    ((Validation.validate_username isDigitC isAlnumC isSpaceC u).valid = true ↔
      (Validation.pyStrip isSpaceC u ≠ [] ∧ 2 ≤ u.length ∧ u.length ≤ 30 ∧
        Validation.pyIsDigit isDigitC u = false ∧
        Validation.pyIsAlnum isAlnumC u = true)) ∧
    ((Validation.validate_username isDigitC isAlnumC isSpaceC u).valid = true ↔
      (Validation.validate_username isDigitC isAlnumC isSpaceC u).errors = []) := by
  unfold Validation.validate_username
  by_cases hguard : u.isEmpty || (Validation.pyStrip isSpaceC u).isEmpty
  · rw [if_pos hguard]
    rw [Bool.or_eq_true] at hguard
    rcases hguard with he | hs
    · constructor
      · simp only [List.isEmpty_iff] at he
        subst he
        simp [Validation.pyStrip]
      · simp [Validation.msgEmpty]
    · constructor
      · simp only [List.isEmpty_iff] at hs
        simp [hs]
      · simp [Validation.msgEmpty]
  · rw [if_neg hguard]
    simp only [Bool.or_eq_true, not_or, List.isEmpty_iff] at hguard
    obtain ⟨hne, hstrip⟩ := hguard
    by_cases h1 : u.length < 2
    · simp only [if_pos h1]
      by_cases h2 : Validation.pyIsDigit isDigitC u <;>
        by_cases h3 : Validation.pyIsAlnum isAlnumC u <;>
          simp [h2, h3, Validation.msgTooShort] <;> omega
    · simp only [if_neg h1]
      by_cases h1' : u.length > 30
      · simp only [if_pos h1']
        by_cases h2 : Validation.pyIsDigit isDigitC u <;>
          by_cases h3 : Validation.pyIsAlnum isAlnumC u <;>
            simp [h2, h3, Validation.msgTooLong] <;> omega
      · simp only [if_neg h1']
        by_cases h2 : Validation.pyIsDigit isDigitC u <;>
          by_cases h3 : Validation.pyIsAlnum isAlnumC u <;>
            simp [h2, h3, hstrip] <;> omega

namespace Summary

/-- Python substring membership: the needle occurs contiguously in the
haystack. -/
def strIn (needle haystack : String) : Bool :=
  haystack.data.tails.any (fun t => needle.data.isPrefixOf t)

def sModels : String := "models"

def sRepository : String := "repository"

def sRepositories : String := "repositories"

def sServices : String := "services"

def sUtils : String := "utils"

def sMainPy : String := "main.py"

def sApi : String := "api"

def sDatabase : String := "database"

def sDb : String := "db"

def sConfig : String := "config"

def sTest : String := "test"

def sTests : String := "tests"

def sHigh : String := "HIGH"

def sMedium : String := "MEDIUM"

/-- The components dict of analyze_project_structure: one list of relative
paths per component key. -/
structure Components where
  models : List String
  repositories : List String
  services : List String
  utils : List String
  api : List String
  database : List String
  config : List String
  tests : List String
deriving DecidableEq, Repr

/-- The eight component keys of the scan. -/
inductive ComponentKind where
  | models
  | repositories
  | services
  | utils
  | api
  | database
  | config
  | tests
deriving DecidableEq, Repr

/-- The if/elif chain of analyze_project_structure: the first matching
substring rule decides the component of a scanned path; a path matching no
rule is put in no list. -/
def classify (p : String) : Option ComponentKind :=
  if strIn sModels p then some ComponentKind.models
  else if strIn sRepository p then some ComponentKind.repositories
  else if strIn sServices p then some ComponentKind.services
  else if strIn sUtils p then some ComponentKind.utils
  else if strIn sMainPy p || strIn sApi p then some ComponentKind.api
  else if strIn sDatabase p || strIn sDb p then some ComponentKind.database
  else if strIn sConfig p then some ComponentKind.config
  else if strIn sTest p then some ComponentKind.tests
  else none

/-- analyze_project_structure over the scanned tree, given as the list of
relative paths of the .py files in scan order: each path is appended to
the list of the first rule it matches. -/
def analyze_project_structure (tree : List String) : Components :=
  { models := tree.filter (fun p => classify p == some ComponentKind.models),
    repositories :=
      tree.filter (fun p => classify p == some ComponentKind.repositories),
    services := tree.filter (fun p => classify p == some ComponentKind.services),
    utils := tree.filter (fun p => classify p == some ComponentKind.utils),
    api := tree.filter (fun p => classify p == some ComponentKind.api),
    database := tree.filter (fun p => classify p == some ComponentKind.database),
    config := tree.filter (fun p => classify p == some ComponentKind.config),
    tests := tree.filter (fun p => classify p == some ComponentKind.tests) }

/-- The component list a kind selects from the components dict. -/
def componentList (c : Components) : ComponentKind → List String
  | ComponentKind.models => c.models
  | ComponentKind.repositories => c.repositories
  | ComponentKind.services => c.services
  | ComponentKind.utils => c.utils
  | ComponentKind.api => c.api
  | ComponentKind.database => c.database
  | ComponentKind.config => c.config
  | ComponentKind.tests => c.tests

/-- One value of the testing_strategy dict of generate_testing_strategy. -/
structure StrategyEntry where
  stype : String
  focus : String
  techniques : List String
  priority : String
  files : List String
deriving DecidableEq, Repr

/-- generate_testing_strategy: the six strategy entries, keyed as in the
source, each holding its component's scanned file list. -/
def generate_testing_strategy (tree : List String) :
    List (String × StrategyEntry) :=
  let c := analyze_project_structure tree
  [(sModels,
    { stype := "Unit Testing",
      focus := "Валидация данных, сериализация/десериализация",
      techniques := ["Black-box", "Boundary Value Analysis"],
      priority := sHigh, files := c.models }),
   (sRepositories,
    { stype := "Unit + Integration Testing",
      focus := "CRUD операции, обработка ошибок БД",
      techniques := ["White-box", "Path Coverage", "Mock Testing"],
      priority := sHigh, files := c.repositories }),
   (sServices,
    { stype := "Unit + Integration Testing",
      focus := "Бизнес-логика, обработка исключений",
      techniques := ["White-box", "Decision Coverage", "Error Handling"],
      priority := sHigh, files := c.services }),
   (sUtils,
    { stype := "Unit Testing",
      focus := "Утилитарные функции, хеширование",
      techniques := ["Black-box", "Equivalence Partitioning"],
      priority := sMedium, files := c.utils }),
   (sApi,
    { stype := "Integration + System Testing",
      focus := "HTTP endpoints, аутентификация",
      techniques := ["End-to-End", "API Testing"],
      priority := sHigh, files := c.api }),
   (sDatabase,
    { stype := "Integration Testing",
      focus := "Подключения, миграции",
      techniques := ["Database Testing", "Transaction Testing"],
      priority := sMedium, files := c.database })]

/-- The metrics dict of calculate_testing_metrics. -/
structure Metrics where
  total_files : Nat
  high_priority_files : Nat
  estimated_coverage : List (String × Nat)
  average_coverage : Rat
deriving DecidableEq, Repr

/-- calculate_testing_metrics: file counts summed over the strategy
entries, the hard-coded estimated_coverage table, and its mean. -/
def calculate_testing_metrics (tree : List String) : Metrics :=
  let strategy := generate_testing_strategy tree
  let total_files := (strategy.map (fun s => s.2.files.length)).sum
  let high_priority_files :=
    ((strategy.filter (fun s => s.2.priority == sHigh)).map
      (fun s => s.2.files.length)).sum
  let estimated_coverage : List (String × Nat) :=
    [(sModels, 85), (sRepositories, 75), (sServices, 70),
     (sUtils, 90), (sApi, 60), (sDatabase, 50)]
  { total_files := total_files,
    high_priority_files := high_priority_files,
    estimated_coverage := estimated_coverage,
    average_coverage :=
      ((estimated_coverage.map (fun e => (e.2 : Rat))).sum) /
        (estimated_coverage.length : Rat) }

/-- The complexity text box rendered by create_flow_graph. -/
def flowComplexityText : String :=
  "ЦИКЛОМАТИЧЕСКАЯ СЛОЖНОСТЬ:\n• Формула M = E - N + 2P\n• E (рёбра) = 15\n• N (узлы) = 14\n• P (компоненты) = 1\n• M = 15 - 14 + 2(1) = 3\n\n• Предикатные узлы: 4\n• M = 4 + 1 = 5\n\nБАЗИС НЕЗАВИСИМЫХ ПУТЕЙ:\n1. 1→2→3 (пользователь не найден)\n2. 1→2→4→5→9→11→12→13→14 (без email)\n3. 1→2→4→5→6→7→8 (email занят)\n4. 1→2→4→5→6→7→9→10→11→12→13→14 (с email)\n5. 1→2→4→5→6→7→9→11→12→13→14 (цикл не выполняется)"

/-- What the figure drawn by create_flow_graph shows: the nodes dict, the
edges list and the complexity text box. -/
structure FlowFigure where
  figNodes : List (Nat × Nat × Nat × String)
  figEdges : List (Nat × Nat × String)
  complexityText : String
deriving DecidableEq, Repr

/-- create_flow_graph of flow_graph_visualization.py: it takes no input
and reads nothing from the filesystem; what it draws is this fixed
figure. -/
def create_flow_graph : FlowFigure :=
  { figNodes := FlowGraph.nodes,
    figEdges := FlowGraph.edges,
    complexityText := flowComplexityText }

/-- The output of flow_graph_visualization.py viewed as a function of the
scanned file tree: the script never reads the tree, so the function is
constant. -/
def flow_graph_script (tree : List String) : FlowFigure :=
  create_flow_graph

/-- The data final_testing_summary.py prints, as a function of the scanned
file tree: the component scan and the metrics. -/
def final_summary_script (tree : List String) : Components × Metrics :=
  (analyze_project_structure tree, calculate_testing_metrics tree)

/-- The output of flow_graph_visualization.py depends on the scanned file
tree: some two trees produce different figures. -/
def flowOutputDependsOnTree : Prop :=
  ∃ t1 t2 : List String, flow_graph_script t1 ≠ flow_graph_script t2

def examplePathModels : String := "models/user.py"

def examplePathModelsTest : String := "models/test_user.py"

end Summary

/-- C4 counterexample: the output of flow_graph_visualization.py does not
depend on the scanned file tree: the script reads no files, so no two
trees yield different figures. -/
theorem c4_flow_output_constant : ¬ Summary.flowOutputDependsOnTree :=
  fun h => h.elim (fun _ h1 => h1.elim (fun _ h2 => h2 rfl))

/-- C4 (amended): final_testing_summary.py scans the file tree and its
summary depends on it — two differing trees give different output — while
flow_graph_visualization.py reads no file tree and its figure is the same
for every tree. -/
theorem c4_scripts_amended :
    Summary.final_summary_script [Summary.examplePathModels] ≠
      Summary.final_summary_script [] ∧
    ∀ t1 t2 : List String,
      Summary.flow_graph_script t1 = Summary.flow_graph_script t2 := by
  constructor
  · intro h
    have hm := congrArg (fun x => x.1.models) h
    simp [Summary.final_summary_script, Summary.analyze_project_structure,
      Summary.examplePathModels] at hm
    exact hm (by decide)
  · intro t1 t2
    rfl

/-- C8: for every scanned tree, calculate_testing_metrics reports the same
estimated_coverage table — models 85, repositories 75, services 70,
utils 90, api 60, database 50 — and an average_coverage of exactly
430 / 6. -/
theorem c8_coverage_constant (tree : List String) :
    (Summary.calculate_testing_metrics tree).estimated_coverage =
      [(Summary.sModels, 85), (Summary.sRepositories, 75),
       (Summary.sServices, 70), (Summary.sUtils, 90),
       (Summary.sApi, 60), (Summary.sDatabase, 50)] ∧
    (Summary.calculate_testing_metrics tree).average_coverage = 430 / 6 := by
  refine ⟨rfl, ?_⟩
  show ((85 : Rat) + (75 + (70 + (90 + (60 + (50 + 0)))))) / 6 = 430 / 6
  norm_num

/-- C9: a scanned path lands in a component list exactly when the if/elif
chain classifies it there, so the eight lists are pairwise disjoint, and a
path matching the first rule (models) is classified there no matter what
later rules it also matches. -/
theorem c9_classification_disjoint :
    (∀ (tree : List String) (k : Summary.ComponentKind) (p : String),
        p ∈ Summary.componentList (Summary.analyze_project_structure tree) k ↔
          (p ∈ tree ∧ Summary.classify p = some k)) ∧
    (∀ (tree : List String) (p : String) (k1 k2 : Summary.ComponentKind),
        p ∈ Summary.componentList (Summary.analyze_project_structure tree) k1 →
        p ∈ Summary.componentList (Summary.analyze_project_structure tree) k2 →
        k1 = k2) ∧
    (∀ p : String, Summary.strIn Summary.sModels p = true →
        Summary.classify p = some Summary.ComponentKind.models) := by
  have hmem : ∀ (tree : List String) (k : Summary.ComponentKind) (p : String),
      p ∈ Summary.componentList (Summary.analyze_project_structure tree) k ↔
        (p ∈ tree ∧ Summary.classify p = some k) := by
    intro tree k p
    cases k <;>
      simp [Summary.componentList, Summary.analyze_project_structure,
        List.mem_filter]
  refine ⟨hmem, ?_, ?_⟩
  · intro tree p k1 k2 h1 h2
    have e1 := ((hmem tree k1 p).mp h1).2
    have e2 := ((hmem tree k2 p).mp h2).2
    exact Option.some.inj (e1.symm.trans e2)
  · intro p h
    simp [Summary.classify, h]

/-- C9 witness: the concrete path models/test_user.py matches both the
models rule and the test rule, and is classified as models, the earlier
rule. -/
theorem c9_witness :
    Summary.classify Summary.examplePathModelsTest =
      some Summary.ComponentKind.models :=
  c9_classification_disjoint.2.2 Summary.examplePathModelsTest (by decide)

/-- C10: for every scanned tree, high_priority_files is at most
total_files; total_files sums the file counts of exactly the six strategy
components (config and tests excluded), and high_priority_files those of
the HIGH-priority components models, repositories, services and api. -/
theorem c10_high_priority_le_total (tree : List String) :
    (Summary.calculate_testing_metrics tree).high_priority_files ≤
      (Summary.calculate_testing_metrics tree).total_files ∧
    (Summary.calculate_testing_metrics tree).total_files =
      (Summary.analyze_project_structure tree).models.length +
        (Summary.analyze_project_structure tree).repositories.length +
        (Summary.analyze_project_structure tree).services.length +
        (Summary.analyze_project_structure tree).utils.length +
        (Summary.analyze_project_structure tree).api.length +
        (Summary.analyze_project_structure tree).database.length ∧
    (Summary.calculate_testing_metrics tree).high_priority_files =
      (Summary.analyze_project_structure tree).models.length +
        (Summary.analyze_project_structure tree).repositories.length +
        (Summary.analyze_project_structure tree).services.length +
        (Summary.analyze_project_structure tree).api.length := by
  refine ⟨?_, ?_, ?_⟩ <;>
    simp [Summary.calculate_testing_metrics, Summary.generate_testing_strategy,
      Summary.sHigh, Summary.sMedium] <;>
    omega
